import Mathlib

/-!
Verification development for the meshcore-gui core
(`meshcore_gui/ble_worker.py`, `meshcore_gui/route_builder.py`,
`meshcore_gui/config.py`).

The Python source is shallowly embedded below.  Conventions of the
embedding:

* Python `dict.get(key, default)` fields are modelled as `Option` fields
  with the default applied at the use site (`Option.getD`).
* Python sets are modelled as duplicate-free `List`s; `set.add` is cons,
  `set.discard` is `List.erase` (a no-op on absent keys, like `discard`).
* Machine floats (`snr`, `time.time()`) are abstracted: signal-quality
  values are carried as opaque already-formatted strings (they are only
  ever copied or formatted, never computed with), and wall-clock time is
  modelled as an exact rational, which the cooldown comparison reads.
* External collaborators that live outside the analysed sources
  (the `meshcoredecoder` packet decoder, the `SharedData` contact
  lookups, the bot-enabled flag) are genuine injected dependencies of
  the Python objects and are passed as function/value parameters.
* The `SharedData` publication surfaces (`add_message`, `add_rx_log`,
  `put_command`) are modelled as lists inside the worker state.
-/

/-- `_SEEN_HASHES_MAX` from `ble_worker.py`: capacity of each dedup cache. -/
def SEEN_HASHES_MAX : Nat := 200

/-- `BOT_CHANNEL` from `config.py`. -/
def BOT_CHANNEL : Int := 1

/-- `BOT_NAME` from `config.py`. -/
def BOT_NAME : String := "Zwolle Bot"

/-- `BOT_COOLDOWN_SECONDS` from `config.py` (`5.0`, exact). -/
def BOT_COOLDOWN_SECONDS : ℚ := 5

/--
One bounded dedup cache: the pair of a membership set
(`_seen_hashes` / `_seen_content`, a Python `set`) and its insertion
order list (`_seen_hashes_order` / `_seen_content_order`).
The Python worker keeps two instances with identical logic
(`_mark_seen`/`_is_seen` and `_mark_content_seen`/`_is_content_seen`);
the logic is embedded once, generically in the key type.
-/
structure DedupCache (α : Type) where
  seen : List α
  order : List α
deriving DecidableEq

/-- Fresh, empty cache (worker constructor state). -/
def DedupCache.empty {α : Type} : DedupCache α := ⟨[], []⟩

/--
The eviction loop of `_mark_seen` / `_mark_content_seen`:
`while len(order) > cap: oldest = order.pop(0); seen.discard(oldest)`.
-/
def dedupEvict {α : Type} [DecidableEq α] (cap : Nat) :
    List α → List α → List α × List α
  | seen, [] => (seen, [])
  | seen, oldest :: rest =>
    if cap < rest.length + 1 then dedupEvict cap (seen.erase oldest) rest
    else (seen, oldest :: rest)

/-- `BLEWorker._mark_seen` (also `_mark_content_seen`): record a key,
evicting oldest entries beyond the capacity. -/
def DedupCache.mark_seen {α : Type} [DecidableEq α]
    (c : DedupCache α) (k : α) : DedupCache α :=
  if k ∈ c.seen then c
  else
    let p := dedupEvict SEEN_HASHES_MAX (k :: c.seen) (c.order ++ [k])
    ⟨p.1, p.2⟩

/-- `BLEWorker._is_seen` (also `_is_content_seen`): membership test. -/
def DedupCache.is_seen {α : Type} [DecidableEq α]
    (c : DedupCache α) (k : α) : Bool :=
  decide (k ∈ c.seen)

/-- Inserting a whole list of keys in order, starting from a given cache. -/
def DedupCache.insert_all {α : Type} [DecidableEq α]
    (c : DedupCache α) (ks : List α) : DedupCache α :=
  ks.foldl DedupCache.mark_seen c

/-- The content dedup key `f"{channel}:{sender}:{text}"` of
`_mark_content_seen` / `_is_content_seen` (the channel is already
rendered to a string, as the f-string does). -/
def content_key (channel sender text : String) : String :=
  channel ++ ":" ++ sender ++ ":" ++ text

/-- Python `str(value)` rendering of an optional integer, as the
f-string in the content key performs it (`None` renders as `"None"`). -/
def opt_int_str : Option Int → String
  | none => "None"
  | some n => toString n

/-!
### String primitives

Lean's built-in `String` functions (`toUpper`, `startsWith`, `splitOn`,
`endsWith`, `trim`) are defined by well-founded recursion over byte
positions and do not reduce in the kernel, so the Python string
operations are embedded structurally over the character list `s.data`.
-/

/-- Python `str.upper()`. -/
def str_upper (s : String) : String := ⟨s.data.map Char.toUpper⟩

/-- Python `str.lower()`. -/
def str_lower (s : String) : String := ⟨s.data.map Char.toLower⟩

/-- Python `str.endswith(t)`. -/
def str_ends_with (s t : String) : Bool :=
  decide (t.data.length ≤ s.data.length) &&
  decide (s.data.drop (s.data.length - t.data.length) = t.data)

/-- Python `str.startswith(t)`. -/
def str_starts_with (s t : String) : Bool :=
  decide (s.data.take t.data.length = t.data)

/-- Python `str.rstrip()` (trailing whitespace removed). -/
def rstrip (s : String) : String :=
  ⟨(s.data.reverse.dropWhile Char.isWhitespace).reverse⟩

/-- Python `str.strip()` (leading and trailing whitespace removed). -/
def str_strip (s : String) : String :=
  ⟨((s.data.dropWhile Char.isWhitespace).reverse.dropWhile
      Char.isWhitespace).reverse⟩

/-- Python `needle in hay` substring containment. -/
def has_sub (needle : List Char) : List Char → Bool
  | [] => decide (needle = [])
  | c :: rest =>
    decide ((c :: rest).take needle.length = needle) || has_sub needle rest

/-- Python `s.split(sep, 1)`: split at the first occurrence of `sep`;
`none` when `sep` does not occur. -/
def split_first (sep : List Char) : List Char → Option (List Char × List Char)
  | [] => none
  | c :: rest =>
    if (c :: rest).take sep.length = sep then
      some ([], (c :: rest).drop sep.length)
    else (split_first sep rest).map (fun p => (c :: p.1, p.2))

/-- The sender/body derivation of `_on_channel_msg`: the channel text
format is `"SenderName: message body"`; split on the first `": "`, trim
the name; without a separator the whole text is the body and the sender
is empty. -/
def split_sender (raw : String) : String × String :=
  match split_first ": ".data raw.data with
  | some p => (str_strip ⟨p.1⟩, ⟨p.2⟩)
  | none => ("", raw)

/-!
### Bot trigger engine (`BLEWorker._bot_check_and_queue`, `_format_path`)
-/

/-- `BLEWorker._format_path`: `"path(N); 8D>A8"` or `"path(0)"`. -/
def format_path (path_len : Nat) (path_hashes : Option (List String)) : String :=
  if path_len = 0 then "path(0)"
  else
    let hs := path_hashes.getD []
    if hs = [] then "path(" ++ toString path_len ++ ")"
    else
      let hop_names :=
        (hs.filter (fun h => decide (h ≠ "") && decide (2 ≤ h.data.length))).map
          str_upper
      if hop_names ≠ [] then
        "path(" ++ toString path_len ++ "); " ++
          String.intercalate ">" hop_names
      else "path(" ++ toString path_len ++ ")"

/-- `BOT_KEYWORDS['test']` reply template with `str.format` applied. -/
def tmpl_test (bot sender snr path : String) : String :=
  bot ++ ": " ++ sender ++ ", rcvd | SNR " ++ snr ++ " | " ++ path

/-- `BOT_KEYWORDS['ping']` reply template with `str.format` applied. -/
def tmpl_ping (bot _sender _snr _path : String) : String :=
  bot ++ ": Pong!"

/-- `BOT_KEYWORDS['help']` reply template with `str.format` applied. -/
def tmpl_help (bot _sender _snr _path : String) : String :=
  bot ++ ": test, ping, help"

/-- `BOT_KEYWORDS` from `config.py`, in dict iteration order; each
template is embedded as the function `str.format` turns it into. -/
def BOT_KEYWORDS : List (String × (String → String → String → String → String)) :=
  [("test", tmpl_test), ("ping", tmpl_ping), ("help", tmpl_help)]

/-- Guard 6 of `_bot_check_and_queue`: first configured keyword contained
in the lowercased text (case-insensitive substring match). -/
def find_keyword (text : String) :
    Option (String × (String → String → String → String → String)) :=
  BOT_KEYWORDS.find? (fun kv => has_sub kv.1.data (str_lower text).data)

/-- A command placed on the `SharedData` queue by `put_command`
(the bot enqueues `{'action': 'send_message', 'channel': BOT_CHANNEL,
'text': reply, '_bot': True}`). -/
structure Command where
  action : String
  channel : Int
  text : String
  is_bot : Bool
deriving DecidableEq

/-- `BLEWorker._bot_check_and_queue`.  State touched: the cooldown
timestamp `_bot_last_reply` and the shared command queue; both are
passed in and returned.  `enabled` is `shared.is_bot_enabled()`, `now`
is `time.time()` (modelled as an exact rational). -/
def bot_check_and_queue (enabled : Bool) (last_reply : ℚ) (queue : List Command)
    (sender text : String) (channel_idx : Option Int) (snr : Option String)
    (path_len : Nat) (path_hashes : Option (List String)) (now : ℚ) :
    ℚ × List Command :=
  if enabled = false then (last_reply, queue)
  else if channel_idx ≠ some BOT_CHANNEL then (last_reply, queue)
  else if sender = "Me" ∨ (text ≠ "" ∧ str_starts_with text BOT_NAME = true) then
    (last_reply, queue)
  else if sender ≠ "" ∧ str_ends_with (str_lower (rstrip sender)) "bot" = true then
    (last_reply, queue)
  else if now - last_reply < BOT_COOLDOWN_SECONDS then (last_reply, queue)
  else
    match find_keyword text with
    | none => (last_reply, queue)
    | some kv =>
      let path_str := format_path path_len path_hashes
      let snr_str := snr.getD "?"
      let reply := kv.2 BOT_NAME (if sender = "" then "?" else sender) snr_str path_str
      (now, queue ++ [⟨"send_message", BOT_CHANNEL, reply, true⟩])

/-!
### Event reconciler (`BLEWorker._on_rx_log`, `_on_channel_msg`)
-/

/-- The decoder's payload-type tag (`packet_parser.PayloadType`); only
`GroupText` is message-bearing in the reconciler. -/
inductive PayloadType where
  | GroupText
  | Other
deriving DecidableEq

/-- A decoded raw LoRa frame as returned by the external
`PacketDecoder.decode` collaborator. -/
structure DecodedPacket where
  payload_type : PayloadType
  is_decrypted : Bool
  message_hash : String
  sender : String
  text : String
  channel_idx : Int
  path_length : Nat
  path_hashes : List String
deriving DecidableEq

/-- The `RX_LOG_DATA` event payload (dict `.get` fields as `Option`;
the float `snr`/`rssi` values are carried opaquely). -/
structure RxPayload where
  payload_hex : String
  snr : Option String
  rssi : Option Int
  payload_type_tag : Option String
  path_len : Option Nat
deriving DecidableEq

/-- The `CHANNEL_MSG_RECV` event payload.  `snr` stands for
`payload.get('SNR') or payload.get('snr')`. -/
structure ChannelPayload where
  message_hash : Option String
  text : String
  channel_idx : Option Int
  path_len : Option Nat
  snr : Option String
deriving DecidableEq

/-- A message record handed to `shared.add_message` (the canonical
message publication surface). -/
structure CanonicalMsg where
  time : String
  sender : String
  text : String
  channel : Option Int
  direction : String
  snr : Option String
  path_len : Nat
  sender_pubkey : String
  path_hashes : List String
  message_hash : String
deriving DecidableEq

/-- The mutable worker state owned by the reconciler's execution
context: the two dedup caches, the bot cooldown timestamp, and the
`SharedData` publication surfaces (message list, raw-telemetry log,
command queue) modelled as lists. -/
structure WorkerState where
  seen_hashes : DedupCache String
  seen_content : DedupCache String
  messages : List CanonicalMsg
  rx_log : List (String × RxPayload)
  bot_last_reply : ℚ
  cmd_queue : List Command

/-- Worker state after `BLEWorker.__init__`. -/
def init_state : WorkerState :=
  { seen_hashes := DedupCache.empty
    seen_content := DedupCache.empty
    messages := []
    rx_log := []
    bot_last_reply := 0
    cmd_queue := [] }

/-- `BLEWorker._on_rx_log`.  `decode` is the external
`PacketDecoder.decode` collaborator, `by_name` is
`shared.get_contact_by_name`, `enabled` is the bot feature flag,
`time_str` the formatted wall-clock time, `now` the monotonic-ish
`time.time()` sample for the bot cooldown. -/
def on_rx_log (decode : String → Option DecodedPacket)
    (by_name : String → Option (String × Unit)) (enabled : Bool)
    (time_str : String) (now : ℚ) (st : WorkerState) (p : RxPayload) :
    WorkerState :=
  let st1 := { st with rx_log := st.rx_log ++ [(time_str, p)] }
  if p.payload_hex = "" then st1
  else
    match decode p.payload_hex with
    | none => st1
    | some d =>
      if d.payload_type = PayloadType.GroupText ∧ d.is_decrypted = true then
        let sh := st1.seen_hashes.mark_seen d.message_hash
        let sc := st1.seen_content.mark_seen
          (content_key (toString d.channel_idx) d.sender d.text)
        let spk :=
          if d.sender ≠ "" then ((by_name d.sender).map (·.1)).getD ""
          else ""
        let mrec : CanonicalMsg :=
          { time := time_str
            sender := d.sender
            text := d.text
            channel := some d.channel_idx
            direction := "in"
            snr := p.snr
            path_len := d.path_length
            sender_pubkey := spk
            path_hashes := d.path_hashes
            message_hash := d.message_hash }
        let bq := bot_check_and_queue enabled st1.bot_last_reply st1.cmd_queue
          d.sender d.text (some d.channel_idx) p.snr d.path_length
          (some d.path_hashes) now
        { st1 with
            seen_hashes := sh
            seen_content := sc
            messages := st1.messages ++ [mrec]
            bot_last_reply := bq.1
            cmd_queue := bq.2 }
      else st1

/-- `BLEWorker._on_channel_msg` (the fallback path). -/
def on_channel_msg (by_name : String → Option (String × Unit))
    (enabled : Bool) (time_str : String) (now : ℚ) (st : WorkerState)
    (p : ChannelPayload) : WorkerState :=
  let msg_hash := p.message_hash.getD ""
  if msg_hash ≠ "" ∧ st.seen_hashes.is_seen msg_hash = true then st
  else
    let sb := split_sender p.text
    let sender := sb.1
    let msg_text := sb.2
    if st.seen_content.is_seen
        (content_key (opt_int_str p.channel_idx) sender msg_text) = true then st
    else
      let spk :=
        if sender ≠ "" then ((by_name sender).map (·.1)).getD "" else ""
      let mrec : CanonicalMsg :=
        { time := time_str
          sender := sender
          text := msg_text
          channel := p.channel_idx
          direction := "in"
          snr := p.snr
          path_len := p.path_len.getD 0
          sender_pubkey := spk
          path_hashes := []
          message_hash := msg_hash }
      let bq := bot_check_and_queue enabled st.bot_last_reply st.cmd_queue
        sender msg_text p.channel_idx p.snr (p.path_len.getD 0) none now
      { st with
          messages := st.messages ++ [mrec]
          bot_last_reply := bq.1
          cmd_queue := bq.2 }

/-!
### Route builder (`route_builder.py`)
-/

/-- A contact record from the snapshot (dict `.get` fields as
`Option`; coordinates only ever compared with 0, modelled as `Int`). -/
structure Contact where
  adv_name : Option String
  adv_lat : Option Int
  adv_lon : Option Int
  ctype : Option Int
  out_path : Option String
  out_path_len : Option Int
deriving DecidableEq

/-- A hop/sender node dict produced by the route builder. -/
structure Node where
  name : String
  lat : Int
  lon : Int
  ntype : Int
  pubkey : String
deriving DecidableEq

/-- The `self_node` entry of the route result. -/
structure SelfNode where
  name : String
  lat : Int
  lon : Int
deriving DecidableEq

/-- The snapshot dict from `SharedData.get_snapshot()` (the parts the
route builder reads).  `contacts` is the pubkey-keyed contact dict in
its (insertion) iteration order. -/
structure Snapshot where
  name : String
  adv_lat : Int
  adv_lon : Int
  contacts : List (String × Contact)

/-- The message dict fields `RouteBuilder.build` reads. -/
structure Msg where
  sender_pubkey : String
  sender : String
  sender_full : Option String
  path_hashes : List String
  path_len : Option Nat
  snr : Option String

/-- `RouteBuilder.build`'s result dict. -/
structure RouteResult where
  sender : Option Node
  self_node : SelfNode
  path_nodes : List Node
  snr : Option String
  msg_path_len : Nat
  has_locations : Bool
  path_source : String

/-- `RouteBuilder._find_contact_by_pubkey_hash`: first contact whose
pubkey starts with the (lowercased) 1-byte hash. -/
def find_contact_by_pubkey_hash (hash_hex : String)
    (contacts : List (String × Contact)) : Option Contact :=
  let hl := str_lower hash_hex
  (contacts.find? (fun pc => str_starts_with (str_lower pc.1) hl = true)).map (·.2)

/-- `RouteBuilder._resolve_hashes`: resolve 1-byte path hashes into hop
node dicts; entries that are empty or shorter than 2 characters are
skipped (`continue`), unresolved hashes become placeholder nodes. -/
def resolve_hashes (hashes : List String)
    (contacts : List (String × Contact)) : List Node :=
  match hashes with
  | [] => []
  | h :: rest =>
    if h = "" ∨ h.data.length < 2 then resolve_hashes rest contacts
    else
      (match find_contact_by_pubkey_hash h contacts with
       | some c =>
         { name := c.adv_name.getD ("0x" ++ h)
           lat := c.adv_lat.getD 0
           lon := c.adv_lon.getD 0
           ntype := c.ctype.getD 0
           pubkey := h }
       | none =>
         { name := "-", lat := 0, lon := 0, ntype := 0, pubkey := h }) ::
        resolve_hashes rest contacts

/-- The slicing loop of `RouteBuilder._parse_out_path`: 2-character
groups taken from the first `min(len(out_path), out_path_len * 2)`
characters; a trailing 1-character group fails the `len == 2` check. -/
def chunk_pairs : List Char → List String
  | a :: b :: rest => (⟨[a, b]⟩ : String) :: chunk_pairs rest
  | [_] => []
  | [] => []

/-- `RouteBuilder._parse_out_path`. -/
def parse_out_path (out_path : String) (out_path_len : Int)
    (contacts : List (String × Contact)) : List Node :=
  let bound := min out_path.data.length (2 * out_path_len).toNat
  resolve_hashes (chunk_pairs (out_path.data.take bound)) contacts

/-- The sender dict built by `RouteBuilder.build` from a found contact. -/
def mk_sender_node (pk : String) (c : Contact) : Node :=
  { name := c.adv_name.getD ⟨pk.data.take 8⟩
    lat := c.adv_lat.getD 0
    lon := c.adv_lon.getD 0
    ntype := c.ctype.getD 0
    pubkey := pk }

/-- The path-source priority block of `RouteBuilder.build`: raw-frame
hashes first, then the sender contact's stored `out_path`, else none. -/
def resolve_path_nodes (contact : Option Contact) (rx_hashes : List String)
    (contacts : List (String × Contact)) : List Node × String :=
  if rx_hashes ≠ [] then (resolve_hashes rx_hashes contacts, "rx_log")
  else
    match contact with
    | some c =>
      let op := c.out_path.getD ""
      let opl := c.out_path_len.getD 0
      if op ≠ "" ∧ opl ≠ 0 ∧ 0 < opl then
        (parse_out_path op opl contacts, "contact_out_path")
      else ([], "none")
    | none => ([], "none")

/-- `RouteBuilder.build`.  `by_pk` is `shared.get_contact_by_prefix`,
`by_name` is `shared.get_contact_by_name` (injected external lookups). -/
def build (by_pk : String → Option Contact)
    (by_name : String → Option (String × Contact)) (msg : Msg)
    (data : Snapshot) : RouteResult :=
  let self_node : SelfNode :=
    { name := if data.name = "" then "Me" else data.name
      lat := data.adv_lat
      lon := data.adv_lon }
  let sc : Option (String × Contact) :=
    if msg.sender_pubkey ≠ "" then
      (by_pk msg.sender_pubkey).map (fun c => (msg.sender_pubkey, c))
    else
      let sender_name :=
        match msg.sender_full with
        | some s => if s = "" then msg.sender else s
        | none => msg.sender
      if sender_name ≠ "" then by_name sender_name else none
  let sender := sc.map (fun pc => mk_sender_node pc.1 pc.2)
  let contact := sc.map (·.2)
  let pn := resolve_path_nodes contact msg.path_hashes data.contacts
  let all_points : List (Int × Int) :=
    (self_node.lat, self_node.lon) ::
      ((sender.map (fun s => (s.lat, s.lon))).toList ++
        pn.1.map (fun n => (n.lat, n.lon)))
  { sender := sender
    self_node := self_node
    path_nodes := pn.1
    snr := msg.snr
    msg_path_len := msg.path_len.getD 0
    has_locations :=
      all_points.any (fun q => decide (q.1 ≠ 0) || decide (q.2 ≠ 0))
    path_source := pn.2 }

/-!
### Predicates used by the verification statements
-/

/-- Well-formedness of a dedup cache, as maintained by the worker: the
membership set and the order list hold the same keys (the Python pair
is a `set` plus its insertion-order list) and the capacity is
respected. -/
def CacheWF {α : Type} [DecidableEq α] (c : DedupCache α) : Prop :=
  List.Perm c.seen c.order ∧ c.order.length ≤ SEEN_HASHES_MAX

/-- FIFO invariant of the cache after inserting the distinct keys
`done` (in order) into an empty cache: the order list is the last
`SEEN_HASHES_MAX` keys, and the membership set is a permutation of it. -/
def fifo_inv {α : Type} [DecidableEq α] (done : List α) (c : DedupCache α) : Prop :=
  List.Perm c.seen c.order ∧
  c.order = done.drop (done.length - SEEN_HASHES_MAX)

/-- Guards 1-4 and 6 of `_bot_check_and_queue` (everything except the
cooldown), as one decidable predicate. -/
def bot_qualifies (enabled : Bool) (sender text : String)
    (channel_idx : Option Int) : Bool :=
  enabled && decide (channel_idx = some BOT_CHANNEL) &&
  !(decide (sender = "Me") || (decide (text ≠ "") && str_starts_with text BOT_NAME)) &&
  !(decide (sender ≠ "") && str_ends_with (str_lower (rstrip sender)) "bot") &&
  (find_keyword text).isSome

/-- The command the bot enqueues when all guards pass. -/
def bot_reply_cmd (sender text : String) (snr : Option String)
    (path_len : Nat) (path_hashes : Option (List String)) : Command :=
  match find_keyword text with
  | some kv =>
    ⟨"send_message", BOT_CHANNEL,
      kv.2 BOT_NAME (if sender = "" then "?" else sender) (snr.getD "?")
        (format_path path_len path_hashes), true⟩
  | none => ⟨"send_message", BOT_CHANNEL, "", true⟩

/-!
## Theorems

### Bounded dedup cache
-/

theorem dedupEvict_of_le {α : Type} [DecidableEq α] (cap : Nat)
    (s o : List α) (h : o.length ≤ cap) : dedupEvict cap s o = (s, o) := by
  cases o with
  | nil => simp [dedupEvict]
  | cons a t =>
    simp only [List.length_cons] at h
    simp only [dedupEvict, if_neg (by omega : ¬cap < t.length + 1)]

theorem dedupEvict_evict_one {α : Type} [DecidableEq α] (cap : Nat)
    (s : List α) (a : α) (t : List α) (h : t.length = cap) :
    dedupEvict cap s (a :: t) = (s.erase a, t) := by
  rw [dedupEvict, if_pos (by omega : cap < t.length + 1)]
  exact dedupEvict_of_le cap _ t (le_of_eq h)

theorem mark_seen_of_mem {α : Type} [DecidableEq α] {c : DedupCache α}
    {k : α} (h : k ∈ c.seen) : c.mark_seen k = c := by
  simp [DedupCache.mark_seen, h]

theorem mark_seen_no_evict {α : Type} [DecidableEq α] {c : DedupCache α}
    {k : α} (h : k ∉ c.seen) (hlen : c.order.length < SEEN_HASHES_MAX) :
    c.mark_seen k = ⟨k :: c.seen, c.order ++ [k]⟩ := by
  rw [DedupCache.mark_seen, if_neg h]
  rw [dedupEvict_of_le _ _ _ (by simp; omega)]

theorem mark_seen_evict {α : Type} [DecidableEq α] {c : DedupCache α}
    {k : α} (h : k ∉ c.seen) (hlen : c.order.length = SEEN_HASHES_MAX)
    (a : α) (t : List α) (ho : c.order = a :: t) :
    c.mark_seen k = ⟨(k :: c.seen).erase a, t ++ [k]⟩ := by
  rw [DedupCache.mark_seen, if_neg h, ho]
  rw [List.cons_append, dedupEvict_evict_one _ _ _ _ (by
    rw [ho] at hlen; simp at hlen ⊢; omega)]

theorem is_seen_mark_seen_self {α : Type} [DecidableEq α]
    {c : DedupCache α} (hwf : CacheWF c) (k : α) :
    (c.mark_seen k).is_seen k = true := by
  by_cases hk : k ∈ c.seen
  · rw [mark_seen_of_mem hk]; simp [DedupCache.is_seen, hk]
  · rcases hwf with ⟨hperm, hlen⟩
    rcases Nat.lt_or_ge c.order.length SEEN_HASHES_MAX with hlt | hge
    · rw [mark_seen_no_evict hk hlt]; simp [DedupCache.is_seen]
    · have hlen' : c.order.length = SEEN_HASHES_MAX := le_antisymm hlen hge
      cases ho : c.order with
      | nil => rw [ho] at hlen'; simp [SEEN_HASHES_MAX] at hlen'
      | cons a t =>
        rw [mark_seen_evict hk hlen' a t ho]
        have hkno : k ∉ c.order := fun hm => hk (hperm.mem_iff.mpr hm)
        have hka : k ≠ a := by
          rintro rfl; exact hkno (ho ▸ List.mem_cons_self k t)
        simp only [DedupCache.is_seen, decide_eq_true_eq]
        exact (List.mem_erase_of_ne hka).mpr (List.mem_cons_self k _)

theorem fifo_step {α : Type} [DecidableEq α] {done : List α}
    {c : DedupCache α} {k : α} (h : fifo_inv done c) (hk : k ∉ done) :
    fifo_inv (done ++ [k]) (c.mark_seen k) := by
  rcases h with ⟨hperm, horder⟩
  have hkno : k ∉ c.order := fun hm => hk (List.mem_of_mem_drop (horder ▸ hm))
  have hks : k ∉ c.seen := fun hm => hkno (hperm.mem_iff.mp hm)
  have hclen : c.order.length = done.length - (done.length - SEEN_HASHES_MAX) := by
    rw [horder, List.length_drop]
  rcases Nat.lt_or_ge c.order.length SEEN_HASHES_MAX with hlt | hge
  · have hdl : done.length < SEEN_HASHES_MAX := by omega
    rw [mark_seen_no_evict hks hlt]
    constructor
    · exact (hperm.cons k).trans (List.perm_append_singleton k c.order).symm
    · have h0 : done.length - SEEN_HASHES_MAX = 0 := by omega
      have h1 : (done ++ [k]).length - SEEN_HASHES_MAX = 0 := by
        simp; omega
      rw [h1, List.drop_zero]
      rw [h0, List.drop_zero] at horder
      rw [horder]
  · have hlen' : c.order.length = SEEN_HASHES_MAX := by omega
    have hdge : SEEN_HASHES_MAX ≤ done.length := by omega
    cases ho : c.order with
    | nil => rw [ho] at hlen'; simp [SEEN_HASHES_MAX] at hlen'
    | cons a t =>
      rw [mark_seen_evict hks hlen' a t ho]
      have hka : k ≠ a := by
        rintro rfl; exact hkno (ho ▸ List.mem_cons_self k t)
      constructor
      · have h1 : (k :: c.seen).erase a = k :: c.seen.erase a := by
          simp [List.erase_cons, hka]
        have h2 : List.Perm (c.seen.erase a) t := by
          have := hperm.erase a
          rwa [ho, List.erase_cons_head] at this
        rw [h1]
        exact (h2.cons k).trans (List.perm_append_singleton k t).symm
      · have ht : done.drop ((done.length - SEEN_HASHES_MAX) + 1) = t := by
          have := congrArg (List.drop 1) horder.symm
          rw [ho] at this
          simpa [List.drop_drop] using this
        have harith : (done ++ [k]).length - SEEN_HASHES_MAX
            = (done.length - SEEN_HASHES_MAX) + 1 := by
          simp only [List.length_append, List.length_cons, List.length_nil]
          omega
        have hS : 1 ≤ SEEN_HASHES_MAX := by norm_num [SEEN_HASHES_MAX]
        rw [harith, List.drop_append_of_le_length (by omega), ht]

theorem fifo_insert_all {α : Type} [DecidableEq α] (ks : List α) :
    ∀ (done : List α) (c : DedupCache α), fifo_inv done c →
      (done ++ ks).Nodup → fifo_inv (done ++ ks) (c.insert_all ks) := by
  induction ks with
  | nil => intro done c h _; simpa [DedupCache.insert_all] using h
  | cons x xs ih =>
    intro done c h hnd
    have hx : x ∉ done := by
      intro hxd
      exact (List.disjoint_of_nodup_append hnd) hxd (List.mem_cons_self x xs)
    have step := fifo_step h hx
    have hre : done ++ x :: xs = (done ++ [x]) ++ xs := by simp
    rw [hre] at hnd
    have := ih (done ++ [x]) (c.mark_seen x) step hnd
    rw [hre]
    simpa [DedupCache.insert_all] using this

/-- C3: inserting 201 distinct keys into the empty capacity-200 dedup
cache evicts exactly the first key: membership is false for the first
key and true for all 200 others, and after every single insertion both
the membership set and the order list hold at most 200 keys. -/
theorem fifo_eviction_spec (k : String) (rest : List String)
    (hnd : (k :: rest).Nodup) (hlen : rest.length = SEEN_HASHES_MAX) :
    (DedupCache.empty.insert_all (k :: rest)).is_seen k = false ∧
    (∀ k' ∈ rest, (DedupCache.empty.insert_all (k :: rest)).is_seen k' = true) ∧
    (∀ p, p <+: (k :: rest) →
      (DedupCache.empty.insert_all p).seen.length ≤ SEEN_HASHES_MAX ∧
      (DedupCache.empty.insert_all p).order.length ≤ SEEN_HASHES_MAX) := by
  have hbase : fifo_inv ([] : List String) DedupCache.empty :=
    ⟨List.Perm.refl [], by simp [DedupCache.empty]⟩
  have hmain := fifo_insert_all (k :: rest) [] DedupCache.empty hbase (by simpa using hnd)
  rcases hmain with ⟨hperm, horder⟩
  have hlen201 : (k :: rest).length = SEEN_HASHES_MAX + 1 := by simp [hlen]
  have horder' : (DedupCache.empty.insert_all (k :: rest)).order = rest := by
    rw [horder]; simp [hlen201]
  have hknotin : k ∉ rest := (List.nodup_cons.mp hnd).1
  refine ⟨?_, ?_, ?_⟩
  · simp only [DedupCache.is_seen, decide_eq_false_iff_not]
    intro hmem
    have hmo := hperm.mem_iff.mp hmem
    rw [horder'] at hmo
    exact hknotin hmo
  · intro k' hk'
    simp only [DedupCache.is_seen, decide_eq_true_eq]
    refine hperm.mem_iff.mpr ?_
    rw [horder']
    exact hk'
  · intro p hp
    have hpnd : p.Nodup := hnd.sublist hp.sublist
    have hpinv := fifo_insert_all p [] DedupCache.empty hbase (by simpa using hpnd)
    rcases hpinv with ⟨hpperm, hporder⟩
    have holen : (DedupCache.empty.insert_all p).order.length ≤ SEEN_HASHES_MAX := by
      rw [hporder, List.length_drop]; omega
    exact ⟨by rw [hpperm.length_eq]; exact holen, holen⟩

/-- Witness for C3 at 201 concrete distinct keys `""`, `"a"`, `"aa"`, …  -/
theorem fifo_eviction_spec_witness :
    (("" :: (List.range SEEN_HASHES_MAX).map
        (fun n => (⟨List.replicate (n + 1) 'a'⟩ : String))).Nodup ∧
      ((List.range SEEN_HASHES_MAX).map
        (fun n => (⟨List.replicate (n + 1) 'a'⟩ : String))).length = SEEN_HASHES_MAX) ∧
    ((DedupCache.empty.insert_all ("" :: (List.range SEEN_HASHES_MAX).map
        (fun n => (⟨List.replicate (n + 1) 'a'⟩ : String)))).is_seen "" = false ∧
      (∀ k' ∈ (List.range SEEN_HASHES_MAX).map
          (fun n => (⟨List.replicate (n + 1) 'a'⟩ : String)),
        (DedupCache.empty.insert_all ("" :: (List.range SEEN_HASHES_MAX).map
          (fun n => (⟨List.replicate (n + 1) 'a'⟩ : String)))).is_seen k' = true) ∧
      (∀ p, p <+: ("" :: (List.range SEEN_HASHES_MAX).map
          (fun n => (⟨List.replicate (n + 1) 'a'⟩ : String))) →
        (DedupCache.empty.insert_all p).seen.length ≤ SEEN_HASHES_MAX ∧
        (DedupCache.empty.insert_all p).order.length ≤ SEEN_HASHES_MAX)) := by
  have hinj : Function.Injective
      (fun n => (⟨List.replicate (n + 1) 'a'⟩ : String)) := by
    intro a b hab
    have := congrArg (fun s : String => s.data.length) hab
    simpa using this
  have hnotin : ("" : String) ∉ (List.range SEEN_HASHES_MAX).map
      (fun n => (⟨List.replicate (n + 1) 'a'⟩ : String)) := by
    intro hmem
    rw [List.mem_map] at hmem
    obtain ⟨n, _, hn⟩ := hmem
    have := congrArg (fun s : String => s.data.length) hn
    simp at this
  have hnd : (("" :: (List.range SEEN_HASHES_MAX).map
      (fun n => (⟨List.replicate (n + 1) 'a'⟩ : String)))).Nodup :=
    List.nodup_cons.mpr ⟨hnotin, (List.nodup_range _).map hinj⟩
  have hlen : ((List.range SEEN_HASHES_MAX).map
      (fun n => (⟨List.replicate (n + 1) 'a'⟩ : String))).length = SEEN_HASHES_MAX := by
    simp
  exact ⟨⟨hnd, hlen⟩, fifo_eviction_spec _ _ hnd hlen⟩

/-!
### Bot trigger engine
-/

/-- C5: path descriptor formatting: hop count 0 gives `"path(0)"`;
hop count 3 with hashes `["8d","a8"]` gives `"path(3); 8D>A8"`; hop
count 2 with no hashes (absent or empty list) gives `"path(2)"`; and in
general a positive hop count with well-formed known hop identifiers
gives `"path(N); "` followed by the uppercased identifiers joined by
`">"`. -/
theorem format_path_spec :
    (∀ hs : Option (List String), format_path 0 hs = "path(0)") ∧
    format_path 3 (some ["8d", "a8"]) = "path(3); 8D>A8" ∧
    format_path 2 none = "path(2)" ∧
    format_path 2 (some []) = "path(2)" ∧
    (∀ (n : Nat) (hs : List String), 0 < n → hs ≠ [] →
      (∀ h ∈ hs, h ≠ "" ∧ 2 ≤ h.data.length) →
      format_path n (some hs) =
        "path(" ++ toString n ++ "); " ++
          String.intercalate ">" (hs.map str_upper)) := by
  refine ⟨fun hs => rfl, by decide, by decide, by decide, ?_⟩
  intro n hs hn hne hall
  have hfil : hs.filter
      (fun h => decide (h ≠ "") && decide (2 ≤ h.data.length)) = hs := by
    rw [List.filter_eq_self]
    intro a ha
    rcases hall a ha with ⟨h1, h2⟩
    simp only [Bool.and_eq_true, decide_eq_true_eq]
    exact ⟨h1, h2⟩
  have hmapne : hs.map str_upper ≠ [] := by
    simpa using hne
  simp only [format_path, if_neg (by omega : ¬n = 0), Option.getD_some,
    if_neg hne, hfil, if_pos hmapne]

/-- Witness for C5 at hop count 1 with the identifier `"ab"`. -/
theorem format_path_spec_witness :
    ((0 : Nat) < 1 ∧ (["ab"] : List String) ≠ [] ∧
      (∀ h ∈ (["ab"] : List String), h ≠ "" ∧ 2 ≤ h.data.length)) ∧
    format_path 1 (some ["ab"]) =
      "path(" ++ toString (1 : Nat) ++ "); " ++
        String.intercalate ">" ((["ab"] : List String).map str_upper) :=
  ⟨⟨by decide, by decide, by decide⟩,
    format_path_spec.2.2.2.2 1 ["ab"] (by decide) (by decide) (by decide)⟩

theorem bot_check_cooldown_active (enabled : Bool) (last_reply : ℚ)
    (queue : List Command) (sender text : String) (channel_idx : Option Int)
    (snr : Option String) (path_len : Nat) (path_hashes : Option (List String))
    (now : ℚ) (hcd : now - last_reply < BOT_COOLDOWN_SECONDS) :
    bot_check_and_queue enabled last_reply queue sender text channel_idx snr
      path_len path_hashes now = (last_reply, queue) := by
  unfold bot_check_and_queue
  split_ifs <;> rfl

theorem bot_check_cases (enabled : Bool) (last_reply : ℚ)
    (queue : List Command) (sender text : String) (channel_idx : Option Int)
    (snr : Option String) (path_len : Nat) (path_hashes : Option (List String))
    (now : ℚ) :
    bot_check_and_queue enabled last_reply queue sender text channel_idx snr
      path_len path_hashes now = (last_reply, queue) ∨
    (BOT_COOLDOWN_SECONDS ≤ now - last_reply ∧
      bot_check_and_queue enabled last_reply queue sender text channel_idx snr
        path_len path_hashes now =
        (now, queue ++ [bot_reply_cmd sender text snr path_len path_hashes])) := by
  unfold bot_check_and_queue
  split_ifs with g1 g2 g3 g4 g5 g6
  · exact Or.inl rfl
  · exact Or.inl rfl
  · exact Or.inl rfl
  · exact Or.inl rfl
  · exact Or.inl rfl
  · cases hk : find_keyword text with
    | none => exact Or.inl rfl
    | some kv =>
      refine Or.inr ⟨not_lt.mp g5, ?_⟩
      simp [bot_reply_cmd, hk, g6]
  · cases hk : find_keyword text with
    | none => exact Or.inl rfl
    | some kv =>
      refine Or.inr ⟨not_lt.mp g5, ?_⟩
      simp [bot_reply_cmd, hk, g6]

theorem bot_check_pass (enabled : Bool) (last_reply : ℚ)
    (queue : List Command) (sender text : String) (channel_idx : Option Int)
    (snr : Option String) (path_len : Nat) (path_hashes : Option (List String))
    (now : ℚ)
    (hq : bot_qualifies enabled sender text channel_idx = true)
    (hcd : BOT_COOLDOWN_SECONDS ≤ now - last_reply) :
    bot_check_and_queue enabled last_reply queue sender text channel_idx snr
      path_len path_hashes now =
      (now, queue ++ [bot_reply_cmd sender text snr path_len path_hashes]) := by
  simp only [bot_qualifies, Bool.and_eq_true, Bool.not_eq_true',
    Bool.or_eq_false_iff, Bool.and_eq_false_iff, decide_eq_true_eq,
    decide_eq_false_iff_not, not_not, Option.isSome_iff_exists] at hq
  obtain ⟨⟨⟨⟨hen, hch⟩, hme, hstart⟩, hbot⟩, kv, hkv⟩ := hq
  unfold bot_check_and_queue
  rw [if_neg (by simp [hen]), if_neg (by simp [hch]), if_neg ?g3, if_neg ?g4,
    if_neg (not_lt.mpr hcd)]
  case g3 =>
    rintro (h | ⟨ht, hsw⟩)
    · exact hme h
    · rcases hstart with h0 | h0
      · exact ht h0
      · rw [h0] at hsw; cases hsw
  case g4 =>
    rintro ⟨hne, hends⟩
    rcases hbot with h0 | h0
    · exact hne h0
    · rw [h0] at hends; cases hends
  cases hk : find_keyword text with
  | none => rw [hkv] at hk; cases hk
  | some kv2 =>
    rw [hkv] at hk
    cases hk
    simp [bot_reply_cmd, hkv]

/-- C6: a reply is enqueued only when the elapsed time since the last
reply is at least the cooldown, and the cooldown timestamp changes only
when a reply is actually enqueued; consequently, of three qualifying
messages at a time `t1` past the cooldown, a time `t2` within one
cooldown window of `t1`, and a time `t3` past it, the first and third
produce replies (and reset the timestamp) while the second produces
none and leaves the timestamp at `t1`. -/
theorem bot_cooldown_spec :
    (∀ (enabled : Bool) (lr : ℚ) (q : List Command) (s a : String)
      (ch : Option Int) (snr : Option String) (pl : Nat)
      (ph : Option (List String)) (now : ℚ),
      ((bot_check_and_queue enabled lr q s a ch snr pl ph now).2 ≠ q →
        BOT_COOLDOWN_SECONDS ≤ now - lr ∧
        (bot_check_and_queue enabled lr q s a ch snr pl ph now).1 = now) ∧
      ((bot_check_and_queue enabled lr q s a ch snr pl ph now).2 = q →
        (bot_check_and_queue enabled lr q s a ch snr pl ph now).1 = lr)) ∧
    (∀ (enabled : Bool) (lr0 : ℚ) (q0 : List Command)
      (s1 a1 s2 a2 s3 a3 : String) (ch1 ch2 ch3 : Option Int)
      (x1 x2 x3 : Option String) (p1 p2 p3 : Nat)
      (h1 h2 h3 : Option (List String)) (t1 t2 t3 : ℚ),
      bot_qualifies enabled s1 a1 ch1 = true →
      bot_qualifies enabled s2 a2 ch2 = true →
      bot_qualifies enabled s3 a3 ch3 = true →
      BOT_COOLDOWN_SECONDS ≤ t1 - lr0 →
      t2 - t1 < BOT_COOLDOWN_SECONDS →
      BOT_COOLDOWN_SECONDS ≤ t3 - t1 →
      (bot_check_and_queue enabled lr0 q0 s1 a1 ch1 x1 p1 h1 t1).2.length
          = q0.length + 1 ∧
      (bot_check_and_queue enabled
        (bot_check_and_queue enabled lr0 q0 s1 a1 ch1 x1 p1 h1 t1).1
        (bot_check_and_queue enabled lr0 q0 s1 a1 ch1 x1 p1 h1 t1).2
        s2 a2 ch2 x2 p2 h2 t2).2.length = q0.length + 1 ∧
      (bot_check_and_queue enabled
        (bot_check_and_queue enabled lr0 q0 s1 a1 ch1 x1 p1 h1 t1).1
        (bot_check_and_queue enabled lr0 q0 s1 a1 ch1 x1 p1 h1 t1).2
        s2 a2 ch2 x2 p2 h2 t2).1 = t1 ∧
      (bot_check_and_queue enabled
        (bot_check_and_queue enabled
          (bot_check_and_queue enabled lr0 q0 s1 a1 ch1 x1 p1 h1 t1).1
          (bot_check_and_queue enabled lr0 q0 s1 a1 ch1 x1 p1 h1 t1).2
          s2 a2 ch2 x2 p2 h2 t2).1
        (bot_check_and_queue enabled
          (bot_check_and_queue enabled lr0 q0 s1 a1 ch1 x1 p1 h1 t1).1
          (bot_check_and_queue enabled lr0 q0 s1 a1 ch1 x1 p1 h1 t1).2
          s2 a2 ch2 x2 p2 h2 t2).2
        s3 a3 ch3 x3 p3 h3 t3).2.length = q0.length + 2) := by
  constructor
  · intro enabled lr q s a ch snr pl ph now
    rcases bot_check_cases enabled lr q s a ch snr pl ph now with h | ⟨hcd, h⟩
    · constructor
      · intro hne; rw [h] at hne; exact absurd rfl hne
      · intro _; rw [h]
    · constructor
      · intro _; rw [h]; exact ⟨hcd, rfl⟩
      · intro heq; rw [h] at heq; simp at heq
  · intro enabled lr0 q0 s1 a1 s2 a2 s3 a3 ch1 ch2 ch3 x1 x2 x3 p1 p2 p3
      h1 h2 h3 t1 t2 t3 hq1 hq2 hq3 hcd1 hcd2 hcd3
    rw [bot_check_pass _ _ _ _ _ _ _ _ _ _ hq1 hcd1]
    simp only
    rw [bot_check_cooldown_active _ _ _ _ _ _ _ _ _ _ hcd2]
    simp only
    rw [bot_check_pass _ _ _ _ _ _ _ _ _ _ hq3 hcd3]
    simp


/-- Witness for C6: three qualifying `"test"` messages on the bot
channel at times 10, 12 and 20, starting from timestamp 0 and an empty
queue. -/
theorem bot_cooldown_spec_witness :
    (bot_qualifies true "Alice" "test hi" (some 1) = true ∧
      BOT_COOLDOWN_SECONDS ≤ (10 : ℚ) - 0 ∧
      (12 : ℚ) - 10 < BOT_COOLDOWN_SECONDS ∧
      BOT_COOLDOWN_SECONDS ≤ (20 : ℚ) - 10) ∧
    ((bot_check_and_queue true 0 [] "Alice" "test hi" (some 1) none 0 none 10).2.length
        = ([] : List Command).length + 1 ∧
      (bot_check_and_queue true
        (bot_check_and_queue true 0 [] "Alice" "test hi" (some 1) none 0 none 10).1
        (bot_check_and_queue true 0 [] "Alice" "test hi" (some 1) none 0 none 10).2
        "Alice" "test hi" (some 1) none 0 none 12).2.length
          = ([] : List Command).length + 1 ∧
      (bot_check_and_queue true
        (bot_check_and_queue true 0 [] "Alice" "test hi" (some 1) none 0 none 10).1
        (bot_check_and_queue true 0 [] "Alice" "test hi" (some 1) none 0 none 10).2
        "Alice" "test hi" (some 1) none 0 none 12).1 = 10 ∧
      (bot_check_and_queue true
        (bot_check_and_queue true
          (bot_check_and_queue true 0 [] "Alice" "test hi" (some 1) none 0 none 10).1
          (bot_check_and_queue true 0 [] "Alice" "test hi" (some 1) none 0 none 10).2
          "Alice" "test hi" (some 1) none 0 none 12).1
        (bot_check_and_queue true
          (bot_check_and_queue true 0 [] "Alice" "test hi" (some 1) none 0 none 10).1
          (bot_check_and_queue true 0 [] "Alice" "test hi" (some 1) none 0 none 10).2
          "Alice" "test hi" (some 1) none 0 none 12).2
        "Alice" "test hi" (some 1) none 0 none 20).2.length
          = ([] : List Command).length + 2) := by
  have hq : bot_qualifies true "Alice" "test hi" (some 1) = true := by decide
  have hc1 : BOT_COOLDOWN_SECONDS ≤ (10 : ℚ) - 0 := by
    norm_num [BOT_COOLDOWN_SECONDS]
  have hc2 : (12 : ℚ) - 10 < BOT_COOLDOWN_SECONDS := by
    norm_num [BOT_COOLDOWN_SECONDS]
  have hc3 : BOT_COOLDOWN_SECONDS ≤ (20 : ℚ) - 10 := by
    norm_num [BOT_COOLDOWN_SECONDS]
  exact ⟨⟨hq, hc1, hc2, hc3⟩,
    bot_cooldown_spec.2 true 0 [] "Alice" "test hi" "Alice" "test hi"
      "Alice" "test hi" (some 1) (some 1) (some 1) none none none 0 0 0
      none none none 10 12 20 hq hq hq hc1 hc2 hc3⟩

/-- C7: a sender whose display name (trailing whitespace trimmed,
lowercased) ends with `"bot"` never triggers a reply and never changes
the cooldown timestamp, whatever the text, channel and elapsed time. -/
theorem bot_suffix_guard (enabled : Bool) (last_reply : ℚ)
    (queue : List Command) (sender text : String) (channel_idx : Option Int)
    (snr : Option String) (path_len : Nat) (path_hashes : Option (List String))
    (now : ℚ)
    (h : str_ends_with (str_lower (rstrip sender)) "bot" = true) :
    bot_check_and_queue enabled last_reply queue sender text channel_idx snr
      path_len path_hashes now = (last_reply, queue) := by
  have hsne : sender ≠ "" := by
    rintro rfl
    exact absurd h (by decide)
  rcases bot_check_cases enabled last_reply queue sender text channel_idx snr
      path_len path_hashes now with hres | ⟨_, hres⟩
  · exact hres
  · exfalso
    revert hres
    unfold bot_check_and_queue
    split_ifs with g1 g2 g3 g4 g5 <;> intro hres
    · simp at hres
    · simp at hres
    · simp at hres
    · simp at hres
    · exact absurd ⟨hsne, h⟩ g4
    · exact absurd ⟨hsne, h⟩ g4

/-- Witness for C7: `"AlphaBot "` with a keyword and an elapsed
cooldown still gets no reply and no timestamp change. -/
theorem bot_suffix_guard_witness :
    str_ends_with (str_lower (rstrip "AlphaBot ")) "bot" = true ∧
    bot_check_and_queue true 0 [] "AlphaBot " "test hello" (some 1) none 0
      none 100 = (0, []) :=
  ⟨by decide,
    bot_suffix_guard true 0 [] "AlphaBot " "test hello" (some 1) none 0
      none 100 (by decide)⟩

/-!
### Route builder
-/

theorem resolve_hashes_pubkeys (hs : List String)
    (cs : List (String × Contact)) (hwf : ∀ h ∈ hs, 2 ≤ h.data.length) :
    (resolve_hashes hs cs).map Node.pubkey = hs := by
  induction hs with
  | nil => rfl
  | cons h rest ih =>
    have hh := hwf h (List.mem_cons_self h rest)
    have hne : ¬(h = "" ∨ h.data.length < 2) := by
      rintro (h0 | h0)
      · rw [h0] at hh; simp at hh
      · omega
    rw [resolve_hashes, if_neg hne]
    cases hfind : find_contact_by_pubkey_hash h cs <;>
      simp [hfind, ih (fun x hx => hwf x (List.mem_cons_of_mem h hx))]

theorem resolve_hashes_placeholder (hs : List String)
    (cs : List (String × Contact)) (hwf : ∀ h ∈ hs, 2 ≤ h.data.length) :
    ∀ h ∈ hs, find_contact_by_pubkey_hash h cs = none →
      ({ name := "-", lat := 0, lon := 0, ntype := 0, pubkey := h } : Node)
        ∈ resolve_hashes hs cs := by
  induction hs with
  | nil => intro h hmem; cases hmem
  | cons x rest ih =>
    intro h hmem hfind
    have hx := hwf x (List.mem_cons_self x rest)
    have hne : ¬(x = "" ∨ x.data.length < 2) := by
      rintro (h0 | h0)
      · rw [h0] at hx; simp at hx
      · omega
    rw [resolve_hashes, if_neg hne]
    rcases List.mem_cons.mp hmem with rfl | hmem'
    · rw [hfind]
      exact List.mem_cons_self _ _
    · have hrec := ih (fun y hy => hwf y (List.mem_cons_of_mem x hy)) h hmem' hfind
      cases hfx : find_contact_by_pubkey_hash x cs <;>
        exact List.mem_cons_of_mem _ hrec

/-- C8 as stated is false on the code: an empty-string hash is skipped
(`continue`), not emitted as a placeholder, so the hop count is not
preserved for the input `[""]`. -/
theorem resolve_hashes_skips_short_cex :
    (resolve_hashes [""] []).length ≠ ([""] : List String).length := by decide

/-- C8 (amended): for hash lists whose entries all have at least two
characters, every hash that matches no contact is emitted as a
placeholder node (name `"-"`, zero coordinates) rather than omitted,
the hop count is preserved, and the output pubkeys are exactly the
input hashes; entries shorter than two characters are skipped. -/
theorem resolve_hashes_placeholder_spec (hs : List String)
    (cs : List (String × Contact)) (hwf : ∀ h ∈ hs, 2 ≤ h.data.length) :
    (resolve_hashes hs cs).length = hs.length ∧
    (resolve_hashes hs cs).map Node.pubkey = hs ∧
    (∀ h ∈ hs, find_contact_by_pubkey_hash h cs = none →
      ({ name := "-", lat := 0, lon := 0, ntype := 0, pubkey := h } : Node)
        ∈ resolve_hashes hs cs) := by
  have hmap := resolve_hashes_pubkeys hs cs hwf
  refine ⟨?_, hmap, resolve_hashes_placeholder hs cs hwf⟩
  have := congrArg List.length hmap
  simpa using this

/-- Witness for C8 (amended): two well-formed hashes against an empty
contact snapshot resolve to two placeholder hops. -/
theorem resolve_hashes_placeholder_spec_witness :
    (∀ h ∈ (["8d", "a8"] : List String), 2 ≤ h.data.length) ∧
    ((resolve_hashes ["8d", "a8"] []).length = (["8d", "a8"] : List String).length ∧
      (resolve_hashes ["8d", "a8"] []).map Node.pubkey = ["8d", "a8"] ∧
      (∀ h ∈ (["8d", "a8"] : List String),
        find_contact_by_pubkey_hash h [] = none →
        ({ name := "-", lat := 0, lon := 0, ntype := 0, pubkey := h } : Node)
          ∈ resolve_hashes ["8d", "a8"] [])) :=
  ⟨by decide, resolve_hashes_placeholder_spec ["8d", "a8"] [] (by decide)⟩

/-- C4: route reconstruction priority: with non-empty raw-frame
`path_hashes` the builder resolves from them (`path_source = "rx_log"`)
whatever the sender contact's stored route; with empty `path_hashes`
and a resolved sender contact with `out_path_len = 2`,
`out_path = "8da8"`, it produces exactly the hops `"8d"`, `"a8"`
(`path_source = "contact_out_path"`); and `_parse_out_path` parses only
the declared number of hop groups, ignoring trailing hex. -/
theorem route_priority_spec :
    (∀ (by_pk : String → Option Contact)
      (by_name : String → Option (String × Contact)) (msg : Msg)
      (data : Snapshot), msg.path_hashes ≠ [] →
      (build by_pk by_name msg data).path_source = "rx_log" ∧
      (build by_pk by_name msg data).path_nodes
        = resolve_hashes msg.path_hashes data.contacts) ∧
    (∀ (by_pk : String → Option Contact)
      (by_name : String → Option (String × Contact)) (msg : Msg)
      (data : Snapshot) (c : Contact), msg.path_hashes = [] →
      msg.sender_pubkey ≠ "" → by_pk msg.sender_pubkey = some c →
      c.out_path = some "8da8" → c.out_path_len = some 2 →
      (build by_pk by_name msg data).path_source = "contact_out_path" ∧
      (build by_pk by_name msg data).path_nodes.map Node.pubkey
        = ["8d", "a8"]) ∧
    (∀ (suffix : String) (cs : List (String × Contact)),
      (parse_out_path ("8da8" ++ suffix) 2 cs).map Node.pubkey
        = ["8d", "a8"]) := by
  have hchunk : ∀ (cs : List (String × Contact)),
      parse_out_path "8da8" 2 cs = resolve_hashes ["8d", "a8"] cs := by
    intro cs
    have h1 : chunk_pairs (("8da8" : String).data.take
        (min ("8da8" : String).data.length ((2 : Int) * 2).toNat))
        = ["8d", "a8"] := by decide
    rw [parse_out_path]
    rw [show (2 : Int) * (2 : Int) = (2 : Int) * 2 from rfl] at h1
    rw [h1]
  have hmap : ∀ (cs : List (String × Contact)),
      (resolve_hashes ["8d", "a8"] cs).map Node.pubkey = ["8d", "a8"] :=
    fun cs => resolve_hashes_pubkeys _ cs (by decide)
  refine ⟨?_, ?_, ?_⟩
  · intro by_pk by_name msg data hne
    constructor <;>
      simp [build, resolve_path_nodes, hne]
  · intro by_pk by_name msg data c hempty hpk hfound hop hopl
    have hsc : (build by_pk by_name msg data).path_nodes
          = parse_out_path "8da8" 2 data.contacts ∧
        (build by_pk by_name msg data).path_source = "contact_out_path" := by
      constructor <;>
        simp [build, resolve_path_nodes, hempty, hpk, hfound, hop, hopl]
    refine ⟨hsc.2, ?_⟩
    rw [hsc.1, hchunk, hmap]
  · intro suffix cs
    have hb : min (("8da8" ++ suffix) : String).data.length ((2 : Int) * 2).toNat
        = 4 := by
      rw [String.data_append]
      simp [List.length_append]
    rw [parse_out_path]
    rw [hb]
    have htake : (("8da8" ++ suffix) : String).data.take 4 = ("8da8" : String).data := by
      rw [String.data_append]
      have h4 : (4 : Nat) = ("8da8" : String).data.length := by decide
      rw [h4]
      exact List.take_left _ _
    rw [htake]
    have hcp : chunk_pairs ("8da8" : String).data = ["8d", "a8"] := by decide
    rw [hcp, hmap]

/-- Witness for C4 at a concrete sender contact carrying
`out_path = "8da8"`, `out_path_len = 2`. -/
theorem route_priority_spec_witness :
    ((⟨"ab12", "", none, [], some 2, none⟩ : Msg).path_hashes = [] ∧
      (⟨"ab12", "", none, [], some 2, none⟩ : Msg).sender_pubkey ≠ "" ∧
      (fun pk => if pk = "ab12"
          then some (⟨some "Rep", some 0, some 0, some 2, some "8da8", some 2⟩ : Contact)
          else none) (⟨"ab12", "", none, [], some 2, none⟩ : Msg).sender_pubkey
        = some (⟨some "Rep", some 0, some 0, some 2, some "8da8", some 2⟩ : Contact) ∧
      (⟨some "Rep", some 0, some 0, some 2, some "8da8", some 2⟩ : Contact).out_path
        = some "8da8" ∧
      (⟨some "Rep", some 0, some 0, some 2, some "8da8", some 2⟩ : Contact).out_path_len
        = some 2) ∧
    ((build (fun pk => if pk = "ab12"
          then some (⟨some "Rep", some 0, some 0, some 2, some "8da8", some 2⟩ : Contact)
          else none)
        (fun _ => none) ⟨"ab12", "", none, [], some 2, none⟩
        ⟨"X", 0, 0, []⟩).path_source = "contact_out_path" ∧
      (build (fun pk => if pk = "ab12"
          then some (⟨some "Rep", some 0, some 0, some 2, some "8da8", some 2⟩ : Contact)
          else none)
        (fun _ => none) ⟨"ab12", "", none, [], some 2, none⟩
        ⟨"X", 0, 0, []⟩).path_nodes.map Node.pubkey = ["8d", "a8"]) :=
  ⟨⟨rfl, by decide, by decide, rfl, rfl⟩,
    route_priority_spec.2.1
      (fun pk => if pk = "ab12"
        then some (⟨some "Rep", some 0, some 0, some 2, some "8da8", some 2⟩ : Contact)
        else none)
      (fun _ => none) ⟨"ab12", "", none, [], some 2, none⟩ ⟨"X", 0, 0, []⟩
      ⟨some "Rep", some 0, some 0, some 2, some "8da8", some 2⟩
      rfl (by decide) (by decide) rfl rfl⟩

/-!
### Event reconciler
-/

theorem on_rx_log_decoded (dec : String → Option DecodedPacket)
    (by_name : String → Option (String × Unit)) (e : Bool) (ts : String)
    (now : ℚ) (st : WorkerState) (p : RxPayload) (d : DecodedPacket)
    (hhex : p.payload_hex ≠ "") (hdec : dec p.payload_hex = some d)
    (hgt : d.payload_type = PayloadType.GroupText)
    (hdc : d.is_decrypted = true) :
    (on_rx_log dec by_name e ts now st p).messages.length
        = st.messages.length + 1 ∧
    (on_rx_log dec by_name e ts now st p).seen_hashes
        = st.seen_hashes.mark_seen d.message_hash ∧
    (on_rx_log dec by_name e ts now st p).seen_content
        = st.seen_content.mark_seen
            (content_key (toString d.channel_idx) d.sender d.text) ∧
    ((on_rx_log dec by_name e ts now st p).bot_last_reply,
        (on_rx_log dec by_name e ts now st p).cmd_queue)
      = bot_check_and_queue e st.bot_last_reply st.cmd_queue d.sender d.text
          (some d.channel_idx) p.snr d.path_length (some d.path_hashes) now := by
  refine ⟨?_, ?_, ?_, ?_⟩ <;>
    simp [on_rx_log, hhex, hdec, hgt, hdc]

theorem on_rx_log_not_decoded (dec : String → Option DecodedPacket)
    (by_name : String → Option (String × Unit)) (e : Bool) (ts : String)
    (now : ℚ) (st : WorkerState) (p : RxPayload)
    (h : p.payload_hex = "" ∨ dec p.payload_hex = none ∨
      ∀ d, dec p.payload_hex = some d →
        ¬(d.payload_type = PayloadType.GroupText ∧ d.is_decrypted = true)) :
    (on_rx_log dec by_name e ts now st p).messages = st.messages := by
  unfold on_rx_log
  by_cases hx : p.payload_hex = ""
  · rw [if_pos hx]
  · rw [if_neg hx]
    rcases h with h | h | h
    · exact absurd h hx
    · rw [h]
    · cases hd : dec p.payload_hex with
      | none => rfl
      | some d => simp [h d hd]

theorem on_channel_msg_caches (by_name : String → Option (String × Unit))
    (e : Bool) (ts : String) (now : ℚ) (st : WorkerState)
    (p : ChannelPayload) :
    (on_channel_msg by_name e ts now st p).seen_hashes = st.seen_hashes ∧
    (on_channel_msg by_name e ts now st p).seen_content = st.seen_content := by
  constructor <;>
  · simp only [on_channel_msg]
    split_ifs <;> rfl

theorem on_channel_msg_no_publish (by_name : String → Option (String × Unit))
    (e : Bool) (ts : String) (now : ℚ) (st : WorkerState) (p : ChannelPayload)
    (h : (p.message_hash.getD "" ≠ "" ∧
        st.seen_hashes.is_seen (p.message_hash.getD "") = true) ∨
      st.seen_content.is_seen (content_key (opt_int_str p.channel_idx)
        (split_sender p.text).1 (split_sender p.text).2) = true) :
    on_channel_msg by_name e ts now st p = st := by
  unfold on_channel_msg
  rcases h with h | h
  · rw [if_pos h]
  · by_cases hc : p.message_hash.getD "" ≠ "" ∧
        st.seen_hashes.is_seen (p.message_hash.getD "") = true
    · rw [if_pos hc]
    · rw [if_neg hc, if_pos h]

theorem on_channel_msg_publish (by_name : String → Option (String × Unit))
    (e : Bool) (ts : String) (now : ℚ) (st : WorkerState) (p : ChannelPayload)
    (h1 : p.message_hash.getD "" = "" ∨
      st.seen_hashes.is_seen (p.message_hash.getD "") = false)
    (h2 : st.seen_content.is_seen (content_key (opt_int_str p.channel_idx)
        (split_sender p.text).1 (split_sender p.text).2) = false) :
    (on_channel_msg by_name e ts now st p).messages.length
      = st.messages.length + 1 := by
  unfold on_channel_msg
  have hc : ¬(p.message_hash.getD "" ≠ "" ∧
      st.seen_hashes.is_seen (p.message_hash.getD "") = true) := by
    rcases h1 with h | h
    · rintro ⟨hne, _⟩; exact hne h
    · rintro ⟨_, hs⟩; rw [h] at hs; cases hs
  rw [if_neg hc, if_neg (by simp [h2])]
  simp

/-- C2 as stated is false on the code: `_on_rx_log` never consults the
hash cache before publishing.  Processing the same decodable raw frame
twice publishes two message records (and, with the bot enabled on a
qualifying message, also queues two replies in general), even though
the hash is already in the cache when the second frame arrives. -/
theorem duplicate_raw_frame_republished_cex :
    (on_rx_log (fun s => if s = "aa"
        then some (⟨PayloadType.GroupText, true, "h1", "Alice", "hi", 0, 0, []⟩
          : DecodedPacket)
        else none)
      (fun _ => none) false "t" 0 init_state
      ⟨"aa", none, none, none, none⟩).seen_hashes.is_seen "h1" = true ∧
    (on_rx_log (fun s => if s = "aa"
        then some (⟨PayloadType.GroupText, true, "h1", "Alice", "hi", 0, 0, []⟩
          : DecodedPacket)
        else none)
      (fun _ => none) false "t" 0
      (on_rx_log (fun s => if s = "aa"
          then some (⟨PayloadType.GroupText, true, "h1", "Alice", "hi", 0, 0, []⟩
            : DecodedPacket)
          else none)
        (fun _ => none) false "t" 0 init_state
        ⟨"aa", none, none, none, none⟩)
      ⟨"aa", none, none, none, none⟩).messages.length = 2 := by
  exact ⟨by decide, by decide⟩

/-- C2 (amended): on a raw-frame notification that decodes to a
decrypted GroupText packet, the event is processed unconditionally:
exactly one message record is published and the bot check is invoked
whether or not the hash is already cached; when the hash is already in
the hash-dedup cache the cache insertion is a no-op (the raw path never
drops an event because of the caches). -/
theorem raw_path_always_publishes (dec : String → Option DecodedPacket)
    (by_name : String → Option (String × Unit)) (e : Bool) (ts : String)
    (now : ℚ) (st : WorkerState) (p : RxPayload) (d : DecodedPacket)
    (hhex : p.payload_hex ≠ "") (hdec : dec p.payload_hex = some d)
    (hgt : d.payload_type = PayloadType.GroupText)
    (hdc : d.is_decrypted = true) :
    (on_rx_log dec by_name e ts now st p).messages.length
        = st.messages.length + 1 ∧
    (st.seen_hashes.is_seen d.message_hash = true →
      (on_rx_log dec by_name e ts now st p).seen_hashes = st.seen_hashes) ∧
    ((on_rx_log dec by_name e ts now st p).bot_last_reply,
        (on_rx_log dec by_name e ts now st p).cmd_queue)
      = bot_check_and_queue e st.bot_last_reply st.cmd_queue d.sender d.text
          (some d.channel_idx) p.snr d.path_length (some d.path_hashes) now := by
  obtain ⟨hm, hsh, _, hbot⟩ :=
    on_rx_log_decoded dec by_name e ts now st p d hhex hdec hgt hdc
  refine ⟨hm, ?_, hbot⟩
  intro hseen
  rw [hsh, mark_seen_of_mem ?_]
  simpa [DedupCache.is_seen] using hseen

/-- Witness for C2 (amended): a decodable frame whose hash is already
cached is still published once more and still reaches the bot check. -/
theorem raw_path_always_publishes_witness :
    (("aa" : String) ≠ "" ∧
      (fun s => if s = "aa"
        then some (⟨PayloadType.GroupText, true, "h1", "Alice", "hi", 0, 0, []⟩
          : DecodedPacket)
        else none) "aa"
        = some ⟨PayloadType.GroupText, true, "h1", "Alice", "hi", 0, 0, []⟩ ∧
      (⟨PayloadType.GroupText, true, "h1", "Alice", "hi", 0, 0, []⟩
        : DecodedPacket).payload_type = PayloadType.GroupText ∧
      (⟨PayloadType.GroupText, true, "h1", "Alice", "hi", 0, 0, []⟩
        : DecodedPacket).is_decrypted = true) ∧
    ((on_rx_log (fun s => if s = "aa"
        then some (⟨PayloadType.GroupText, true, "h1", "Alice", "hi", 0, 0, []⟩
          : DecodedPacket)
        else none)
      (fun _ => none) false "t" 0 init_state
      ⟨"aa", none, none, none, none⟩).messages.length
        = init_state.messages.length + 1 ∧
     ((init_state : WorkerState).seen_hashes.is_seen "h1" = true →
      (on_rx_log (fun s => if s = "aa"
          then some (⟨PayloadType.GroupText, true, "h1", "Alice", "hi", 0, 0, []⟩
            : DecodedPacket)
          else none)
        (fun _ => none) false "t" 0 init_state
        ⟨"aa", none, none, none, none⟩).seen_hashes = init_state.seen_hashes) ∧
     ((on_rx_log (fun s => if s = "aa"
          then some (⟨PayloadType.GroupText, true, "h1", "Alice", "hi", 0, 0, []⟩
            : DecodedPacket)
          else none)
        (fun _ => none) false "t" 0 init_state
        ⟨"aa", none, none, none, none⟩).bot_last_reply,
      (on_rx_log (fun s => if s = "aa"
          then some (⟨PayloadType.GroupText, true, "h1", "Alice", "hi", 0, 0, []⟩
            : DecodedPacket)
          else none)
        (fun _ => none) false "t" 0 init_state
        ⟨"aa", none, none, none, none⟩).cmd_queue)
       = bot_check_and_queue false init_state.bot_last_reply
           init_state.cmd_queue "Alice" "hi" (some 0) none 0 (some []) 0) :=
  ⟨⟨by decide, by decide, rfl, rfl⟩,
    raw_path_always_publishes _ _ false "t" 0 init_state
      ⟨"aa", none, none, none, none⟩
      ⟨PayloadType.GroupText, true, "h1", "Alice", "hi", 0, 0, []⟩
      (by decide) (by decide) rfl rfl⟩

/-- C1 as stated is false on the code: when the matching fallback
notification is processed before the raw frame, both events publish a
record (the raw path never dedups), so the transmission yields two
message records instead of one. -/
theorem fallback_first_publishes_twice_cex :
    (on_rx_log (fun s => if s = "aa"
        then some (⟨PayloadType.GroupText, true, "h1", "Alice", "hi", 0, 0, []⟩
          : DecodedPacket)
        else none)
      (fun _ => none) false "t" 0
      (on_channel_msg (fun _ => none) false "t" 0 init_state
        ⟨some "h1", "Alice: hi", some 0, some 0, none⟩)
      ⟨"aa", none, none, none, none⟩).messages.length = 2 := by decide

/-- C1 (amended): for a matching raw-frame/fallback pair, processing
the raw frame first publishes exactly one record — the fallback is then
suppressed (by the hash key or, failing that, by the content key) —
but processing the fallback first publishes two records, one per
event, because the raw path publishes unconditionally. -/
theorem dedup_order_dependence :
    (∀ (dec : String → Option DecodedPacket)
      (by_name : String → Option (String × Unit)) (e e' : Bool)
      (ts ts' : String) (now now' : ℚ) (st : WorkerState)
      (p : RxPayload) (fb : ChannelPayload) (d : DecodedPacket),
      CacheWF st.seen_content →
      p.payload_hex ≠ "" → dec p.payload_hex = some d →
      d.payload_type = PayloadType.GroupText → d.is_decrypted = true →
      split_sender fb.text = (d.sender, d.text) →
      fb.channel_idx = some d.channel_idx →
      (on_channel_msg by_name e' ts' now'
        (on_rx_log dec by_name e ts now st p) fb).messages.length
        = st.messages.length + 1) ∧
    (∀ (dec : String → Option DecodedPacket)
      (by_name : String → Option (String × Unit)) (e e' : Bool)
      (ts ts' : String) (now now' : ℚ) (st : WorkerState)
      (p : RxPayload) (fb : ChannelPayload) (d : DecodedPacket),
      p.payload_hex ≠ "" → dec p.payload_hex = some d →
      d.payload_type = PayloadType.GroupText → d.is_decrypted = true →
      (fb.message_hash.getD "" = "" ∨
        st.seen_hashes.is_seen (fb.message_hash.getD "") = false) →
      st.seen_content.is_seen (content_key (opt_int_str fb.channel_idx)
        (split_sender fb.text).1 (split_sender fb.text).2) = false →
      (on_rx_log dec by_name e' ts' now'
        (on_channel_msg by_name e ts now st fb) p).messages.length
        = st.messages.length + 2) := by
  constructor
  · intro dec by_name e e' ts ts' now now' st p fb d hwf hhex hdec hgt hdc
      hsplit hch
    obtain ⟨hm, _, hsc, _⟩ :=
      on_rx_log_decoded dec by_name e ts now st p d hhex hdec hgt hdc
    have h1 : (split_sender fb.text).1 = d.sender := by rw [hsplit]
    have h2 : (split_sender fb.text).2 = d.text := by rw [hsplit]
    have hchv : opt_int_str fb.channel_idx = toString d.channel_idx := by
      rw [hch]; rfl
    have hkey : (on_rx_log dec by_name e ts now st p).seen_content.is_seen
        (content_key (opt_int_str fb.channel_idx)
          (split_sender fb.text).1 (split_sender fb.text).2) = true := by
      rw [h1, h2, hchv, hsc]
      exact is_seen_mark_seen_self hwf _
    rw [on_channel_msg_no_publish _ _ _ _ _ _ (Or.inr hkey), hm]
  · intro dec by_name e e' ts ts' now now' st p fb d hhex hdec hgt hdc hh1 hh2
    have hfb := on_channel_msg_publish by_name e ts now st fb hh1 hh2
    obtain ⟨hm, _, _, _⟩ := on_rx_log_decoded dec by_name e' ts' now'
      (on_channel_msg by_name e ts now st fb) p d hhex hdec hgt hdc
    rw [hm, hfb]

/-- Witness for C1 (amended) on a concrete matching pair: raw-first
yields one record, fallback-first yields two. -/
theorem dedup_order_dependence_witness :
    (CacheWF (init_state : WorkerState).seen_content ∧
      ("aa" : String) ≠ "" ∧
      split_sender "Alice: hi" = ("Alice", "hi") ∧
      ((⟨some "h1", "Alice: hi", some 0, some 0, none⟩
          : ChannelPayload).message_hash.getD "" = "" ∨
        (init_state : WorkerState).seen_hashes.is_seen
          ((⟨some "h1", "Alice: hi", some 0, some 0, none⟩
            : ChannelPayload).message_hash.getD "") = false) ∧
      (init_state : WorkerState).seen_content.is_seen
        (content_key (opt_int_str (some 0)) "Alice" "hi") = false) ∧
    (on_channel_msg (fun _ => none) false "t" 0
      (on_rx_log (fun s => if s = "aa"
          then some (⟨PayloadType.GroupText, true, "h1", "Alice", "hi", 0, 0, []⟩
            : DecodedPacket)
          else none)
        (fun _ => none) false "t" 0 init_state
        ⟨"aa", none, none, none, none⟩)
      ⟨some "h1", "Alice: hi", some 0, some 0, none⟩).messages.length
      = init_state.messages.length + 1 ∧
    (on_rx_log (fun s => if s = "aa"
        then some (⟨PayloadType.GroupText, true, "h1", "Alice", "hi", 0, 0, []⟩
          : DecodedPacket)
        else none)
      (fun _ => none) false "t" 0
      (on_channel_msg (fun _ => none) false "t" 0 init_state
        ⟨some "h1", "Alice: hi", some 0, some 0, none⟩)
      ⟨"aa", none, none, none, none⟩).messages.length
      = init_state.messages.length + 2 := by
  have hwf : CacheWF (init_state : WorkerState).seen_content := by
    refine ⟨List.Perm.refl _, ?_⟩
    norm_num [init_state, DedupCache.empty, SEEN_HASHES_MAX]
  refine ⟨⟨hwf, by decide, by decide, Or.inr (by decide), by decide⟩, ?_, ?_⟩
  · exact dedup_order_dependence.1 _ _ false false "t" "t" 0 0 init_state
      ⟨"aa", none, none, none, none⟩
      ⟨some "h1", "Alice: hi", some 0, some 0, none⟩
      ⟨PayloadType.GroupText, true, "h1", "Alice", "hi", 0, 0, []⟩
      hwf (by decide) (by decide) rfl rfl (by decide) rfl
  · exact dedup_order_dependence.2 _ _ false false "t" "t" 0 0 init_state
      ⟨"aa", none, none, none, none⟩
      ⟨some "h1", "Alice: hi", some 0, some 0, none⟩
      ⟨PayloadType.GroupText, true, "h1", "Alice", "hi", 0, 0, []⟩
      (by decide) (by decide) rfl rfl (Or.inr (by decide)) (by decide)

/-- C9: processing a fallback notification never inserts into either
dedup cache (membership tests only); consequently two identical
fallback notifications, neither suppressed at the starting state, each
publish their own message record. -/
theorem fallback_no_cache_insert :
    (∀ (by_name : String → Option (String × Unit)) (e : Bool) (ts : String)
      (now : ℚ) (st : WorkerState) (p : ChannelPayload),
      (on_channel_msg by_name e ts now st p).seen_hashes = st.seen_hashes ∧
      (on_channel_msg by_name e ts now st p).seen_content = st.seen_content) ∧
    (∀ (by_name : String → Option (String × Unit)) (e : Bool)
      (ts ts' : String) (now now' : ℚ) (st : WorkerState) (p : ChannelPayload),
      (p.message_hash.getD "" = "" ∨
        st.seen_hashes.is_seen (p.message_hash.getD "") = false) →
      st.seen_content.is_seen (content_key (opt_int_str p.channel_idx)
        (split_sender p.text).1 (split_sender p.text).2) = false →
      (on_channel_msg by_name e ts' now'
        (on_channel_msg by_name e ts now st p) p).messages.length
        = st.messages.length + 2) := by
  refine ⟨on_channel_msg_caches, ?_⟩
  intro by_name e ts ts' now now' st p hh1 hh2
  obtain ⟨hsh, hsc⟩ := on_channel_msg_caches by_name e ts now st p
  have hfirst := on_channel_msg_publish by_name e ts now st p hh1 hh2
  have hsecond := on_channel_msg_publish by_name e ts' now'
    (on_channel_msg by_name e ts now st p) p (by rw [hsh]; exact hh1)
    (by rw [hsc]; exact hh2)
  rw [hsecond, hfirst]

/-- Witness for C9: the same hashless fallback processed twice from the
initial state publishes two records. -/
theorem fallback_no_cache_insert_witness :
    (((⟨none, "Bob: yo", some 0, some 0, none⟩
        : ChannelPayload).message_hash.getD "" = "" ∨
      (init_state : WorkerState).seen_hashes.is_seen
        ((⟨none, "Bob: yo", some 0, some 0, none⟩
          : ChannelPayload).message_hash.getD "") = false) ∧
      (init_state : WorkerState).seen_content.is_seen
        (content_key (opt_int_str (⟨none, "Bob: yo", some 0, some 0, none⟩
            : ChannelPayload).channel_idx)
          (split_sender (⟨none, "Bob: yo", some 0, some 0, none⟩
            : ChannelPayload).text).1
          (split_sender (⟨none, "Bob: yo", some 0, some 0, none⟩
            : ChannelPayload).text).2) = false) ∧
    (on_channel_msg (fun _ => none) false "u" 1
      (on_channel_msg (fun _ => none) false "t" 0 init_state
        ⟨none, "Bob: yo", some 0, some 0, none⟩)
      ⟨none, "Bob: yo", some 0, some 0, none⟩).messages.length
      = init_state.messages.length + 2 :=
  ⟨⟨Or.inl rfl, by decide⟩,
    fallback_no_cache_insert.2 (fun _ => none) false "t" "u" 0 1 init_state
      ⟨none, "Bob: yo", some 0, some 0, none⟩ (Or.inl rfl) (by decide)⟩

/-- C10: the content dedup key concatenates channel, sender and text
with `":"` and no escaping, so it is not injective: the distinct
triples `(0, "a", "b:c")` and `(0, "a:b", "c")` share a key, and a
fallback whose derived triple is `("a", "b:c")` is suppressed by an
earlier raw-decoded message with sender `"a:b"` and text `"c"` on the
same channel. -/
theorem content_key_not_injective :
    content_key "0" "a" "b:c" = content_key "0" "a:b" "c" ∧
    (("a", "b:c") : String × String) ≠ ("a:b", "c") ∧
    (on_channel_msg (fun _ => none) false "u" 0
      (on_rx_log (fun s => if s = "bb"
          then some (⟨PayloadType.GroupText, true, "h2", "a:b", "c", 0, 0, []⟩
            : DecodedPacket)
          else none)
        (fun _ => none) false "t" 0 init_state
        ⟨"bb", none, none, none, none⟩)
      ⟨none, "a: b:c", some 0, some 0, none⟩).messages.length = 1 ∧
    split_sender "a: b:c" = ("a", "b:c") :=
  ⟨by decide, by decide, by decide, by decide⟩
